import Mathlib

/-
Verification of the sunset-visibility repository.

The repository computes whether sunset is visible over open water from a
beach.  The development below gives a shallow embedding of the decision
logic of the four Python modules:

  * Exact float arithmetic on the decision path consists of comparisons,
    additions and divisions by powers of two only; those parts are
    embedded over the rationals, which model them exactly.
  * The circular statistics of the view-window estimator are embedded
    over the real numbers, the idealized-arithmetic reading of the float
    code; these definitions are necessarily noncomputable.  The NOAA
    ephemeris itself (sun_position) is not embedded: whether its
    unclamped inverse-trigonometric arguments leave their domains is
    decided by floating-point rounding noise, which exact arithmetic
    does not model faithfully; it reaches the embedded logic only
    through the altitude and azimuth values it produces.
  * Loops with data-dependent exits are embedded with an explicit fuel
    that provably exceeds the iteration bound forced by the loop guard.
  * Code whose result feeds the logic only through an altitude signal or
    a fetched data set (sun_position inside find_sunset, the Overpass
    fetch inside analyze_coastline) is abstracted as an explicit function
    parameter, so that the control flow is verified for every possible
    signal.
-/

/-! ## Rational utilities -/

/-- Python float modulo `x % m` for rational operands, exact.  For `m > 0`
the result lies in `[0, m)`, matching Python semantics. -/
def pymod (x m : ℚ) : ℚ := x - m * ⌊x / m⌋

/-! ## coastline_analyzer.is_bearing_in_range (src/coastline_analyzer.py:562-572) -/

/-- Embeds `is_bearing_in_range(bearing, start, end)`: normalize all three
operands mod 360; plain interval test when `start <= end`, otherwise the
wraparound disjunction. -/
def is_bearing_in_range (b s e : ℚ) : Bool :=
  let b := pymod b 360
  let s := pymod s 360
  let e := pymod e 360
  if s ≤ e then decide (s ≤ b ∧ b ≤ e) else decide (b ≥ s ∨ b ≤ e)

/-! ## sunset_visibility.BeachGeometry and analyze_horizon (src/sunset_visibility.py:194-304) -/

/-- Embeds the fields of `BeachGeometry` that the decision logic reads.
Obstructions are `(start_az, end_az, description)`; scenic features are
`(center_az, half_width, name, description)`. -/
structure BeachGeometry where
  ocean_view_start : ℚ
  ocean_view_end : ℚ
  obstructions : List (ℚ × ℚ × String)
  scenic_features : List (ℚ × ℚ × String × String)
deriving DecidableEq

/-- Embeds the obstruction loop shared by `analyze_horizon` and
`check_sunset`: return the description of the first interval with
`obs_start <= az <= obs_end` (plain comparisons, no normalization). -/
def first_obstruction (obs : List (ℚ × ℚ × String)) (az : ℚ) : Option String :=
  match obs with
  | [] => none
  | (s, e, d) :: rest => if s ≤ az ∧ az ≤ e then some d else first_obstruction rest az

/-- Embeds `analyze_horizon(beach, sun_azimuth)` (lines 286-304): plain
ocean-view test, then the first matching obstruction, else clear. -/
def analyze_horizon (beach : BeachGeometry) (sun_azimuth : ℚ) : Bool × String :=
  if beach.ocean_view_start ≤ sun_azimuth ∧ sun_azimuth ≤ beach.ocean_view_end then
    match first_obstruction beach.obstructions sun_azimuth with
    | some d => (false, "Blocked by " ++ d)
    | none => (true, "Clear ocean horizon")
  else if sun_azimuth < beach.ocean_view_start then
    (false, "Sun sets too far south (blocked by land/headland)")
  else
    (false, "Sun sets too far north (blocked by land/headland)")

/-- Embeds the scenic-feature loop of `analyze_sunset_visibility`
(lines 389-423): the loop overwrites the reported feature on every match,
so the last matching feature wins; alignment thresholds are 0.5 and 1.5
degrees.  Result is `(name, alignment, description)`. -/
def scenic_note (fs : List (ℚ × ℚ × String × String)) (az : ℚ) :
    Option (String × String × String) :=
  fs.foldl
    (fun acc f =>
      let c := f.1
      let w := f.2.1
      let n := f.2.2.1
      let d := f.2.2.2
      if c - w ≤ az ∧ az ≤ c + w then
        some (n, (if |az - c| < 0.5 then "direct"
                  else if |az - c| < 1.5 then "adjacent" else "nearby"), d)
      else acc)
    none

/-- Embeds the scenic-reporting step of `analyze_sunset_visibility`: a
scenic feature is attached to the result only when `analyze_horizon`
declared the sunset visible. -/
def analyze_scenic (beach : BeachGeometry) (az : ℚ) : Option (String × String × String) :=
  if (analyze_horizon beach az).1 then scenic_note beach.scenic_features az else none

/-- Embeds `get_nai_harn_beach_geometry()` (lines 212-272): the concrete
curated geometry for Nai Harn Beach. -/
def get_nai_harn_beach_geometry : BeachGeometry :=
  { ocean_view_start := 230
    ocean_view_end := 295
    obstructions :=
      [(180, 230, "Promthep Cape (southern headland)"),
       (295, 360, "Northern headland")]
    scenic_features :=
      [(247, 2.5, "Koh Man Island",
        "Small rocky island that creates a dramatic silhouette when sun sets behind it")] }

/-! ## sunset_check.check_sunset visibility fragment (src/sunset_check.py:216-235) -/

/-- Embeds the fields of `BeachData` read by the visibility fragment of
`check_sunset`. -/
structure BeachData where
  ocean_view_start : ℚ
  ocean_view_end : ℚ
  obstructions : List (ℚ × ℚ × String)
  scenic_features : List (ℚ × ℚ × String × String)
deriving DecidableEq

/-- Embeds the ocean-view containment test of `check_sunset` (lines
216-220): wraparound-aware when `start > end`, but with no mod-360
normalization of its operands. -/
def sun_over_ocean_test (s e az : ℚ) : Bool :=
  if s ≤ e then decide (s ≤ az ∧ az ≤ e) else decide (az ≥ s ∨ az ≤ e)

/-- Embeds the scenic loop of `check_sunset` (lines 231-235): no break, so
the last matching feature wins; the containment test is `|az - c| <= w`
and the alignment tiers are `direct` (< 1 degree) and `near`.  Result is
`(name, alignment, description)`. -/
def last_scenic (fs : List (ℚ × ℚ × String × String)) (az : ℚ) :
    Option (String × String × String) :=
  fs.foldl
    (fun acc f =>
      let c := f.1
      let w := f.2.1
      let n := f.2.2.1
      let d := f.2.2.2
      if |az - c| ≤ w then
        some (n, (if |az - c| < 1 then "direct" else "near"), d)
      else acc)
    none

/-- Embeds the visibility fragment of `check_sunset(beach, date)` (lines
216-235) as a function of the sunset azimuth: the wraparound-aware view
test, then the first matching obstruction (which also forces the verdict
to not-visible), then the scenic annotation. -/
def check_sunset_visibility (beach : BeachData) (az : ℚ) :
    Bool × Option String × Option (String × String × String) :=
  let over := sun_over_ocean_test beach.ocean_view_start beach.ocean_view_end az
  let obs := first_obstruction beach.obstructions az
  let over := if obs.isSome then false else over
  (over, obs, last_scenic beach.scenic_features az)

/-- Replaces the scenic-feature list of a `BeachData` record, leaving all
other fields unchanged (used to state that the verdict ignores the list). -/
def withScenicData (b : BeachData) (fs : List (ℚ × ℚ × String × String)) : BeachData :=
  ⟨b.ocean_view_start, b.ocean_view_end, b.obstructions, fs⟩

/-- Replaces the scenic-feature list of a `BeachGeometry` record, leaving
all other fields unchanged. -/
def withScenicGeom (b : BeachGeometry) (fs : List (ℚ × ℚ × String × String)) : BeachGeometry :=
  ⟨b.ocean_view_start, b.ocean_view_end, b.obstructions, fs⟩

/-- A beach record whose ocean view spans the whole compass and whose only
obstruction interval wraps through north: used to probe the obstruction
containment test. -/
def demo_beach_data : BeachData := ⟨0, 360, [(350, 10, "Test headland")], []⟩

/-! ## coastline_analyzer feature classification (src/coastline_analyzer.py:518-542) -/

/-- Embeds one point feature returned by `fetch_nearby_features`: name,
bearing from the query point, and distance in meters. -/
structure OsmFeature where
  name : String
  bearing : ℚ
  distance_m : ℚ
deriving DecidableEq

/-- Embeds the `features` dictionary returned by `fetch_nearby_features`. -/
structure NearbyFeatures where
  capes : List OsmFeature
  cliffs : List OsmFeature
  islands : List OsmFeature
  peninsulas : List OsmFeature
deriving DecidableEq

/-- Embeds the headland-warning loops of `analyze_coastline` (lines
524-542): capes and peninsulas inside the view window are always
reported; islands are reported when inside the window and closer than
10000 m.  The `cliffs` list is fetched but never traversed by the code,
so it contributes nothing.  The numeric interpolations of the Python
message strings are abstracted away; membership is what matters. -/
def headland_warnings (features : NearbyFeatures) (vs ve : ℚ) : List String :=
  ((features.capes ++ features.peninsulas).filter
      (fun c => is_bearing_in_range c.bearing vs ve)).map
    (fun c => c.name ++ " may obstruct view")
  ++ (features.islands.filter
      (fun i => is_bearing_in_range i.bearing vs ve && decide (i.distance_m < 10000))).map
    (fun i => "Island " ++ i.name ++ " - potential scenic feature")

/-- Replaces the cliff list of a feature set, leaving the rest unchanged. -/
def withCliffs (f : NearbyFeatures) (cl : List OsmFeature) : NearbyFeatures :=
  ⟨f.capes, cl, f.islands, f.peninsulas⟩

/-! ## coastline_analyzer fetch and retry stage (src/coastline_analyzer.py:384-403) -/

/-- Embeds `CoastlineData`: the polylines fetched from the map provider
plus the lake flag. -/
structure CoastlineData where
  ways : List (List (ℚ × ℚ))
  is_lake : Bool
deriving DecidableEq

/-- The error raised by `analyze_coastline` when no shoreline is found
(`InlandLocationError`). -/
inductive AnalyzeError where
  | inlandLocationError
deriving DecidableEq

/-- Embeds the fetch stage of `analyze_coastline` (lines 384-403),
abstracting `fetch_coastline` as a function of the search radius: when the
first fetch yields no ways the code re-queries once with a 5000 m radius,
and only raises `InlandLocationError` when that second fetch is also
empty.  On success it returns the data together with the radius in
effect. -/
def analyze_coastline_fetch (fetch : ℚ → CoastlineData) (radius_m : ℚ) :
    Except AnalyzeError (CoastlineData × ℚ) :=
  let d0 := fetch radius_m
  let dr := if d0.ways.isEmpty then (fetch 5000, (5000 : ℚ)) else (d0, radius_m)
  if dr.1.ways.isEmpty then .error .inlandLocationError else .ok dr

/-- A fetch signal that finds nothing at radius 2000 but finds a shoreline
at any other radius: used to exhibit the internal retry. -/
def demo_fetch : ℚ → CoastlineData :=
  fun r => if r = 2000 then ⟨[], false⟩ else ⟨[[(0, 0), (0, 1)]], false⟩

/-! ## sunset_visibility.find_sunset (src/sunset_visibility.py:144-187)

The solar altitude produced by `sun_position` enters `find_sunset` only as
a signal `time -> altitude`; the scan and bisection are embedded for an
arbitrary signal `alt` over exact rationals.  Times are minutes relative
to local midnight of the requested date. -/

/-- The only error `find_sunset` can raise: the untyped
`ValueError("Could not find sunset")` of line 172. -/
inductive FindSunsetError where
  | couldNotFindSunset
deriving DecidableEq

/-- The refraction-corrected sunset altitude target of line 162. -/
def target_altitude : ℚ := -0.833

/-- Embeds the coarse 5-minute forward scan of `find_sunset` (lines
164-172): evaluate the altitude at `dt`; stop when it first drops below
the target; otherwise advance 5 minutes and raise the generic error as
soon as the time passes 12 h beyond `utc_noon`.  The fuel argument only
needs to exceed the 145 evaluations the 12-hour guard allows. -/
def coarse_scan (alt : ℚ → ℚ) (utc_noon : ℚ) : ℕ → ℚ → Except FindSunsetError ℚ
  | 0, _ => .error .couldNotFindSunset
  | fuel + 1, dt =>
    if alt dt < target_altitude then .ok dt
    else if utc_noon + 720 < dt + 5 then .error .couldNotFindSunset
    else coarse_scan alt utc_noon fuel (dt + 5)

/-- Embeds the bisection loop of `find_sunset` (lines 174-184): narrow the
bracket for a fixed number of iterations, keeping the half whose left end
is still above the target. -/
def bisect (alt : ℚ → ℚ) : ℕ → ℚ → ℚ → ℚ × ℚ
  | 0, low, high => (low, high)
  | n + 1, low, high =>
    let mid := low + (high - low) / 2
    if target_altitude < alt mid then bisect alt n mid high else bisect alt n low mid

/-- Embeds `find_sunset(date, lat, lon, timezone_offset)` for an arbitrary
altitude signal: anchor at the UTC equivalent of local noon, coarse scan,
then 20 bisection iterations; the result is the converged instant (the
code then evaluates `sun_position` there). -/
def find_sunset (alt : ℚ → ℚ) (timezone_offset : ℚ) : Except FindSunsetError ℚ :=
  let utc_noon := 720 - 60 * timezone_offset
  match coarse_scan alt utc_noon 150 utc_noon with
  | .error e => .error e
  | .ok dt =>
    let lh := bisect alt 20 (dt - 5) dt
    .ok (lh.1 + (lh.2 - lh.1) / 2)

/-- The Python default value of the `timezone_offset` parameter of
`find_sunset` (line 144). -/
def find_sunset_default_tz : ℚ := 7.0

/-- Embeds the sunset computation of `analyze_sunset_visibility` (line
324): `find_sunset` is called without a timezone argument, so the default
offset applies whatever the beach longitude is. -/
def analyze_sunset_utc (alt : ℚ → ℚ) : Except FindSunsetError ℚ :=
  find_sunset alt find_sunset_default_tz

/-- Embeds the local-time conversion of `analyze_sunset_visibility` (line
327): a hard-coded 7 hours is added to the UTC sunset instant. -/
def analyze_sunset_local (alt : ℚ → ℚ) : Except FindSunsetError ℚ :=
  (analyze_sunset_utc alt).map (fun t => t + 7 * 60)

/-- An altitude signal that stays 10 degrees above the horizon at all
times, as in polar day. -/
def altAllAbove : ℚ → ℚ := fun _ => 10

/-- An altitude signal that stays 10 degrees below the horizon at all
times, as in polar night. -/
def altAllBelow : ℚ → ℚ := fun _ => -10

/-! ## Real-valued embedding of the circular statistics

Floating-point trigonometry is modelled by exact real arithmetic. -/

open Real in
/-- Embeds `math.radians`. -/
noncomputable def radians (d : ℝ) : ℝ := d * π / 180

open Real in
/-- Embeds `math.degrees`. -/
noncomputable def degrees (r : ℝ) : ℝ := r * 180 / π

/-- Python float modulo `x % m` over the reals (exact idealization); for
`m > 0` the result lies in `[0, m)`. -/
noncomputable def pymodR (x m : ℝ) : ℝ := x - m * ⌊x / m⌋

open Real in
/-- Embeds `math.atan2(y, x)` with the standard quadrant selection. -/
noncomputable def atan2 (y x : ℝ) : ℝ :=
  if 0 < x then arctan (y / x)
  else if x < 0 ∧ 0 ≤ y then arctan (y / x) + π
  else if x < 0 then arctan (y / x) - π
  else if 0 < y then π / 2
  else if y < 0 then -(π / 2)
  else 0

/-! ## coastline_analyzer view-window estimation (src/coastline_analyzer.py:459-503)

The extracted segments enter this stage as pairs of a distance from the
query point and an ocean direction (`waterBearing`); distances are kept
rational because the stage only compares and sorts them, while the ocean
directions feed the circular statistics over the reals. -/

open Real in
/-- Embeds the circular-mean computation of `analyze_coastline` (lines
471-475): sum of unit vectors, `atan2`, degrees, normalized mod 360. -/
noncomputable def circular_mean_deg (dirs : List ℝ) : ℝ :=
  let sin_sum := (dirs.map (fun d => Real.sin (radians d))).sum
  let cos_sum := (dirs.map (fun d => Real.cos (radians d))).sum
  pymodR (degrees (atan2 sin_sum cos_sum)) 360

/-- Embeds the deviation list of lines 478-481: minimal signed angular
difference from the mean, in absolute value. -/
noncomputable def deviations (dirs : List ℝ) (avg : ℝ) : List ℝ :=
  dirs.map (fun d => |pymodR (d - avg + 180) 360 - 180|)

/-- Embeds line 483: `max(deviations) if deviations else 30`. -/
noncomputable def max_deviation (dirs : List ℝ) (avg : ℝ) : ℝ :=
  match deviations dirs avg with
  | [] => 30
  | x :: xs => xs.foldl max x

/-- Stable insertion into a distance-sorted list: the new element goes
before the first element whose key is not strictly smaller, so that
inserting the head of a list into its sorted tail keeps equal-distance
elements in their original relative order, as in Python stable sorting. -/
def insertByDist (p : ℚ × ℝ) : List (ℚ × ℝ) → List (ℚ × ℝ)
  | [] => [p]
  | q :: qs => if q.1 < p.1 then q :: insertByDist p qs else p :: q :: qs

/-- Stable sort by distance, modelling `nearby_segments.sort(key=...)`. -/
def sortByDist : List (ℚ × ℝ) → List (ℚ × ℝ)
  | [] => []
  | p :: ps => insertByDist p (sortByDist ps)

/-- Embeds lines 463-464: segments within 1000 m of the query point,
sorted ascending by distance. -/
def nearby_of (segs : List (ℚ × ℝ)) : List (ℚ × ℝ) :=
  sortByDist (segs.filter (fun p => p.1 < 1000))

/-- Embeds line 469: the ocean directions of the up-to-10 nearest of the
nearby segments. -/
def dirs_of (segs : List (ℚ × ℝ)) : List ℝ :=
  ((nearby_of segs).take 10).map Prod.snd

/-- The circular mean of the sampled ocean directions (line 475). -/
noncomputable def avg_of (segs : List (ℚ × ℝ)) : ℝ :=
  circular_mean_deg (dirs_of segs)

/-- The circular dispersion of the sampled ocean directions (line 483). -/
noncomputable def max_dev_of (segs : List (ℚ × ℝ)) : ℝ :=
  max_deviation (dirs_of segs) (avg_of segs)

/-- Embeds the view-window estimation stage of `analyze_coastline` (lines
459-503) as a function of the closest-segment ocean direction and the
segment list: with at least 3 nearby segments the facing azimuth is the
circular mean and the dispersion selects half-width and confidence;
otherwise the closest-segment direction is kept with half-width 50 and
low confidence.  The result is `(facing_azimuth, half_width,
confidence)`. -/
noncomputable def view_stage (closest_dir : ℝ) (segs : List (ℚ × ℝ)) : ℝ × ℚ × String :=
  if 3 ≤ (nearby_of segs).length then
    let avg := avg_of segs
    let md := max_dev_of segs
    if md < 10 then (avg, 60, "high")
    else if md < 25 then (avg, 50, "medium")
    else (avg, 40, "medium")
  else (closest_dir, 50, "low")

/-- Restates, in the words of the specification, the mapping from
circular dispersion to half-width and confidence; compared against the
code-side `view_stage`. -/
noncomputable def dispersion_window_spec (d : ℝ) : ℚ × String :=
  if d < 10 then (60, "high")
  else if d < 25 then (50, "medium")
  else (40, "medium")

/-- Three segments at rational distances 1, 2, 3 m, all with ocean
direction 90 degrees: a concrete input for the view-window estimator. -/
def demo_segments : List (ℚ × ℝ) := [(1, 90), (2, 90), (3, 90)]

/-! ## Helper lemmas -/

/-- The obstruction loop returns the description of the first interval
containing the azimuth under the plain (non-wraparound) test. -/
theorem first_obstruction_eq_find (obs : List (ℚ × ℚ × String)) (az : ℚ) :
    first_obstruction obs az
      = (obs.find? (fun t => decide (t.1 ≤ az ∧ az ≤ t.2.1))).map (fun t => t.2.2) := by
  induction obs with
  | nil => rfl
  | cons hd tl ih =>
    obtain ⟨s, e, d⟩ := hd
    by_cases hc : s ≤ az ∧ az ≤ e
    · simp [first_obstruction, List.find?_cons_of_pos, hc]
    · simp only [first_obstruction, if_neg hc]
      rw [List.find?_cons_of_neg, ih]
      simpa using hc

/-! ## C7: boundary values of the circular containment test -/

/-- C7: for every pair of rational endpoints, `is_bearing_in_range`
accepts both boundary values, in the plain branch as well as in the
wraparound branch. -/
theorem is_bearing_in_range_boundary (s e : ℚ) :
    is_bearing_in_range s s e = true ∧ is_bearing_in_range e s e = true := by
  constructor <;> (simp only [is_bearing_in_range]; split <;> simp_all [le_refl])

/-! ## C3: which containment tests normalize and handle wraparound -/

/-- C3 counterexample: the obstruction interval (350, 10) wraps through
north and the wraparound-aware test places azimuth 5 inside it, yet
`check_sunset` reports no obstruction there; likewise `analyze_horizon`
rejects azimuth 20 for the wrapping view window (310, 30); and the
`check_sunset` view test does not normalize its azimuth operand, since
normalizing 365 to 5 changes its answer. -/
theorem containment_tests_not_wraparound :
    is_bearing_in_range 5 350 10 = true ∧
    check_sunset_visibility demo_beach_data 5 = (true, none, none) ∧
    is_bearing_in_range 20 310 30 = true ∧
    analyze_horizon ⟨310, 30, [], []⟩ 20
      = (false, "Sun sets too far south (blocked by land/headland)") ∧
    sun_over_ocean_test 0 360 (pymod 365 360) = true ∧
    sun_over_ocean_test 0 360 365 = false := by
  refine ⟨?_, ?_, ?_, ?_, ?_, ?_⟩
  · norm_num [is_bearing_in_range, pymod]
  · norm_num [check_sunset_visibility, demo_beach_data, sun_over_ocean_test,
      first_obstruction, last_scenic]
  · norm_num [is_bearing_in_range, pymod]
  · norm_num [analyze_horizon, first_obstruction]
  · norm_num [sun_over_ocean_test, pymod]
  · norm_num [sun_over_ocean_test]

/-- C3: on the way to a verdict, only the ocean-view test of
`check_sunset` is wraparound-aware (without normalizing its operands
first); the obstruction test is the plain first-match interval scan. -/
theorem containment_tests_characterization (b : BeachData) (az s e : ℚ)
    (obs : List (ℚ × ℚ × String)) :
    (e < s → (sun_over_ocean_test s e az = true ↔ s ≤ az ∨ az ≤ e)) ∧
    (s ≤ e → (sun_over_ocean_test s e az = true ↔ s ≤ az ∧ az ≤ e)) ∧
    first_obstruction obs az
      = (obs.find? (fun t => decide (t.1 ≤ az ∧ az ≤ t.2.1))).map (fun t => t.2.2) ∧
    (check_sunset_visibility b az).2.1 = first_obstruction b.obstructions az := by
  refine ⟨?_, ?_, first_obstruction_eq_find obs az, rfl⟩
  · intro h
    simp [sun_over_ocean_test, if_neg (not_le.mpr h)]
  · intro h
    simp [sun_over_ocean_test, if_pos h]

/-- C3 witness: the characterization applied to the wrapping pair
(350, 10) at azimuth 5 and to the plain pair (230, 295) at azimuth 250. -/
theorem containment_tests_characterization_witness :
    (sun_over_ocean_test 350 10 5 = true ↔ (350 : ℚ) ≤ 5 ∨ (5 : ℚ) ≤ 10) ∧
    (sun_over_ocean_test 230 295 250 = true ↔ (230 : ℚ) ≤ 250 ∧ (250 : ℚ) ≤ 295) :=
  ⟨(containment_tests_characterization demo_beach_data 5 350 10 []).1 (by norm_num),
   (containment_tests_characterization demo_beach_data 250 230 295 []).2.1 (by norm_num)⟩

/-! ## C4: point-feature classification against the view window -/

/-- C4 counterexample: a cliff whose bearing 270 lies inside the view
window (230, 310) produces no warning, because `analyze_coastline`
iterates only over capes, peninsulas and islands. -/
theorem cliff_inside_window_not_reported :
    headland_warnings ⟨[], [⟨"Test Cliff", 270, 500⟩], [], []⟩ 230 310 = [] ∧
    is_bearing_in_range 270 230 310 = true := by
  constructor
  · rfl
  · norm_num [is_bearing_in_range, pymod]

/-- C4: capes and peninsulas inside the window are always reported with no
distance cutoff, islands inside the window are reported exactly when
closer than 10 km, features outside the window are never reported, and
the cliff list never contributes a warning. -/
theorem feature_classifier_characterization (f : NearbyFeatures) (c i cl : OsmFeature)
    (cls : List OsmFeature) (vs ve : ℚ) :
    headland_warnings ⟨[c], [], [], []⟩ vs ve
      = (if is_bearing_in_range c.bearing vs ve then [c.name ++ " may obstruct view"] else []) ∧
    headland_warnings ⟨[], [], [], [c]⟩ vs ve
      = (if is_bearing_in_range c.bearing vs ve then [c.name ++ " may obstruct view"] else []) ∧
    headland_warnings ⟨[], [], [i], []⟩ vs ve
      = (if is_bearing_in_range i.bearing vs ve ∧ i.distance_m < 10000 then
          ["Island " ++ i.name ++ " - potential scenic feature"] else []) ∧
    headland_warnings ⟨[], [cl], [], []⟩ vs ve = [] ∧
    headland_warnings (withCliffs f cls) vs ve = headland_warnings f vs ve := by
  refine ⟨?_, ?_, ?_, rfl, rfl⟩
  · simp only [headland_warnings, List.nil_append, List.append_nil, List.filter]
    split <;> simp_all
  · simp only [headland_warnings, List.nil_append, List.append_nil, List.filter]
    split <;> simp_all
  · simp only [headland_warnings, List.nil_append, List.append_nil, List.filter]
    by_cases h1 : is_bearing_in_range i.bearing vs ve ∧ i.distance_m < 10000
    · simp [h1.1, h1.2]
    · rw [if_neg h1]
      rcases Decidable.not_and_iff_or_not.mp h1 with h2 | h2 <;> simp [h2]

/-! ## C5: scenic alignment tiers and their effect on the verdict -/

/-- C5 counterexample: at sunset azimuth 247.7 the angular distance to the
Koh Man Island center (247) is 0.7, below one degree, yet
`analyze_sunset_visibility` reports the alignment "adjacent", because its
"direct" threshold is 0.5 degrees. -/
theorem scenic_direct_threshold_counterexample :
    analyze_scenic get_nai_harn_beach_geometry 247.7
      = some ("Koh Man Island", "adjacent",
          "Small rocky island that creates a dramatic silhouette when sun sets behind it") ∧
    |(247.7 : ℚ) - 247| < 1 := by
  constructor
  · norm_num [analyze_scenic, analyze_horizon, get_nai_harn_beach_geometry,
      first_obstruction, scenic_note, abs_of_nonneg]
  · norm_num [abs_of_nonneg]

/-- C5: in `analyze_sunset_visibility` the alignment tiers are "direct"
below 0.5 degrees, "adjacent" below 1.5 degrees and "nearby" otherwise
within the half-width, and scenic notes are computed only when the
verdict is already visible; in `check_sunset` the tiers are "direct"
below 1 degree and "near" otherwise; in both functions the scenic list
has no influence on the visible/not-visible outcome or on the reported
obstruction. -/
theorem scenic_alignment_characterization (g : BeachGeometry) (b : BeachData)
    (fs : List (ℚ × ℚ × String × String)) (az c w : ℚ) (n d : String) :
    scenic_note [(c, w, n, d)] az
      = (if c - w ≤ az ∧ az ≤ c + w then
          some (n, (if |az - c| < 0.5 then "direct"
                    else if |az - c| < 1.5 then "adjacent" else "nearby"), d)
         else none) ∧
    analyze_scenic g az
      = (if (analyze_horizon g az).1 then scenic_note g.scenic_features az else none) ∧
    analyze_horizon (withScenicGeom g fs) az = analyze_horizon g az ∧
    last_scenic [(c, w, n, d)] az
      = (if |az - c| ≤ w then
          some (n, (if |az - c| < 1 then "direct" else "near"), d)
         else none) ∧
    (check_sunset_visibility (withScenicData b fs) az).1 = (check_sunset_visibility b az).1 ∧
    (check_sunset_visibility (withScenicData b fs) az).2.1
      = (check_sunset_visibility b az).2.1 :=
  ⟨rfl, rfl, rfl, rfl, rfl, rfl⟩

/-! ## C6: the fetch stage of the shoreline analyzer retries internally -/

/-- C6 counterexample: with a fetch signal that is empty at radius 2000
but nonempty at radius 5000, the fetch stage succeeds after internally
re-querying with the larger radius instead of failing. -/
theorem analyze_coastline_retries_internally :
    (demo_fetch 2000).ways.isEmpty = true ∧
    analyze_coastline_fetch demo_fetch 2000 = .ok (⟨[[(0, 0), (0, 1)]], false⟩, 5000) := by
  constructor
  · rfl
  · rfl

/-- C6: when the first fetch yields no segments the analyzer re-queries
once with a 5000 m radius and fails with InlandLocationError only when
that second fetch is also empty; when the first fetch is nonempty it is
used directly. -/
theorem analyze_coastline_fetch_behavior (fetch : ℚ → CoastlineData) (r : ℚ) :
    ((fetch r).ways.isEmpty = true →
      analyze_coastline_fetch fetch r
        = (if (fetch 5000).ways.isEmpty then .error .inlandLocationError
           else .ok (fetch 5000, 5000))) ∧
    ((fetch r).ways.isEmpty = false →
      analyze_coastline_fetch fetch r = .ok (fetch r, r)) := by
  constructor
  · intro h
    simp [analyze_coastline_fetch, h]
  · intro h
    simp [analyze_coastline_fetch, h]

/-- C6 witness: the behavior theorem applied to the demo fetch signal at
radii 2000 (empty first fetch) and 3000 (nonempty first fetch). -/
theorem analyze_coastline_fetch_behavior_witness :
    analyze_coastline_fetch demo_fetch 2000
      = (if (demo_fetch 5000).ways.isEmpty then .error .inlandLocationError
         else .ok (demo_fetch 5000, 5000)) ∧
    analyze_coastline_fetch demo_fetch 3000 = .ok (demo_fetch 3000, 3000) :=
  ⟨(analyze_coastline_fetch_behavior demo_fetch 2000).1 (by decide),
   (analyze_coastline_fetch_behavior demo_fetch 3000).2 (by decide)⟩

/-! ## C1: failure behavior of find_sunset -/

/-- When the altitude is below the target at the scan start, the coarse
scan stops immediately at its first evaluation. -/
theorem coarse_scan_immediate (alt : ℚ → ℚ) (noon dt : ℚ) (fuel : ℕ) (hf : fuel ≠ 0)
    (h : alt dt < target_altitude) : coarse_scan alt noon fuel dt = .ok dt := by
  cases fuel with
  | zero => exact absurd rfl hf
  | succ n => simp [coarse_scan, h]

/-- When the altitude never drops below the target, the coarse scan walks
to the 12-hour guard and raises the generic error, provided the fuel
covers the remaining 5-minute steps. -/
theorem coarse_scan_all_above (alt : ℚ → ℚ) (noon : ℚ)
    (h : ∀ t, target_altitude ≤ alt t) :
    ∀ (fuel : ℕ) (dt : ℚ), noon + 720 - dt < 5 * fuel →
      coarse_scan alt noon fuel dt = .error .couldNotFindSunset := by
  intro fuel
  induction fuel with
  | zero => intro dt _; rfl
  | succ fuel ih =>
    intro dt hb
    rw [coarse_scan, if_neg (not_lt.mpr (h dt))]
    by_cases hc : noon + 720 < dt + 5
    · rw [if_pos hc]
    · rw [if_neg hc]
      apply ih
      push_cast at hb ⊢
      linarith

/-- When the altitude stays below the target on the whole bracket, every
bisection step keeps the left end and halves the interval. -/
theorem bisect_all_below (alt : ℚ → ℚ) (h : ∀ t, alt t < target_altitude) :
    ∀ (n : ℕ) (low high : ℚ), bisect alt n low high = (low, low + (high - low) / 2 ^ n) := by
  intro n
  induction n with
  | zero =>
    intro low high
    simp only [bisect, pow_zero, div_one]
    congr 1
    ring
  | succ n ih =>
    intro low high
    rw [bisect, if_neg (lt_asymm (h (low + (high - low) / 2)))]
    rw [ih]
    congr 1
    ring

/-- C1 counterexample: under polar-night conditions every sampled
altitude (here constantly -10) is below the -0.833 target, so the claim
requires a typed PolarNight failure; instead `find_sunset` succeeds,
returning a time within five minutes of the local-noon anchor. -/
theorem find_sunset_polar_night_counterexample :
    altAllBelow 0 < target_altitude ∧
    find_sunset altAllBelow 7 = .ok (295 + 5 / 2097152) := by
  constructor
  · norm_num [altAllBelow, target_altitude]
  · have hb : ∀ t, altAllBelow t < target_altitude := fun t => by
      norm_num [altAllBelow, target_altitude]
    have hc : coarse_scan altAllBelow (720 - 60 * 7) 150 (720 - 60 * 7)
        = .ok (720 - 60 * 7) :=
      coarse_scan_immediate altAllBelow _ _ 150 (by norm_num) (hb _)
    simp only [find_sunset, hc]
    rw [bisect_all_below altAllBelow hb 20 (720 - 60 * 7 - 5) (720 - 60 * 7)]
    norm_num

/-- C1: `find_sunset` has no pre-scan and no typed polar errors.  For
every altitude signal and UTC offset: if the altitude never drops below
the -0.833 target, the 5-minute coarse scan raises the single generic
error (the untyped ValueError of the code) once it passes 12 hours after
the local-noon anchor, with no 200-step cap; and if the altitude is below
the target already at the anchor (polar night), the function does not
fail at all but returns the instant anchor - 5 + 5/2097152 minutes
produced by bisection over the first bracket. -/
theorem find_sunset_untyped_failure (alt : ℚ → ℚ) (tz : ℚ) :
    ((∀ t, target_altitude ≤ alt t) →
      find_sunset alt tz = .error .couldNotFindSunset) ∧
    ((∀ t, alt t < target_altitude) →
      find_sunset alt tz = .ok (720 - 60 * tz - 5 + 5 / 2097152)) := by
  constructor
  · intro h
    have hc : coarse_scan alt (720 - 60 * tz) 150 (720 - 60 * tz)
        = .error .couldNotFindSunset :=
      coarse_scan_all_above alt _ h 150 _ (by norm_num)
    simp only [find_sunset, hc]
  · intro h
    have hc : coarse_scan alt (720 - 60 * tz) 150 (720 - 60 * tz)
        = .ok (720 - 60 * tz) :=
      coarse_scan_immediate alt _ _ 150 (by norm_num) (h _)
    simp only [find_sunset, hc]
    rw [bisect_all_below alt h 20 (720 - 60 * tz - 5) (720 - 60 * tz)]
    congr 1
    ring_nf

/-- C1 witness: the failure theorem applied to the constant polar-day and
polar-night altitude signals at UTC offset 7. -/
theorem find_sunset_untyped_failure_witness :
    find_sunset altAllAbove 7 = .error .couldNotFindSunset ∧
    find_sunset altAllBelow 7 = .ok (720 - 60 * 7 - 5 + 5 / 2097152) :=
  ⟨(find_sunset_untyped_failure altAllAbove 7).1
      (fun t => by norm_num [altAllAbove, target_altitude]),
   (find_sunset_untyped_failure altAllBelow 7).2
      (fun t => by norm_num [altAllBelow, target_altitude])⟩

/-! ## C10: the hard-coded UTC+7 assumption of analyze_sunset_visibility -/

/-- C10: the `timezone_offset` parameter of `find_sunset` defaults to 7
hours; `analyze_sunset_visibility` calls `find_sunset` without passing an
offset, so its sunset search anchors at local noon minus 7 hours (UTC
minute 300) for every beach, and it converts the result to local time by
adding a hard-coded 7 hours, independent of the beach longitude or
timezone in the geometry. -/
theorem analyze_sunset_hardcoded_utc7 (alt : ℚ → ℚ) :
    find_sunset_default_tz = 7 ∧
    analyze_sunset_utc alt = find_sunset alt 7 ∧
    analyze_sunset_local alt = (find_sunset alt 7).map (fun t => t + 7 * 60) ∧
    720 - 60 * find_sunset_default_tz = (300 : ℚ) := by
  have h7 : find_sunset_default_tz = 7 := by norm_num [find_sunset_default_tz]
  refine ⟨h7, ?_, ?_, by rw [h7]; norm_num⟩
  · rw [analyze_sunset_utc, h7]
  · rw [analyze_sunset_local, analyze_sunset_utc, h7]

/-! ## C8: dispersion-to-window mapping of the view-stage estimator -/

/-- C8: the view-window estimator agrees with the specified mapping: with
at least 3 segments within 1000 m the facing azimuth is the circular mean
of the up-to-10 nearest ocean directions and the computed dispersion
selects the half-width and confidence (below 10 gives 60/high, below 25
gives 50/medium, otherwise 40/medium); with fewer than 3 such segments
the result is the closest-segment direction with half-width 50 and low
confidence. -/
theorem view_stage_dispersion_mapping (closest_dir : ℝ) (segs : List (ℚ × ℝ)) :
    view_stage closest_dir segs =
      (if 3 ≤ (nearby_of segs).length then
        (avg_of segs, dispersion_window_spec (max_dev_of segs))
      else (closest_dir, 50, "low")) := by
  simp only [view_stage, dispersion_window_spec]
  split_ifs <;> rfl

/-! ## C9: the aggregated facing azimuth is a circular mean -/

/-- C9: the circular mean of the bearing sample [10, 350] is exactly 0
degrees, not the arithmetic average 180; and whenever at least 3 nearby
segments exist, the facing azimuth produced by the view stage is the
circular mean of the sampled ocean directions. -/
theorem circular_mean_wraparound :
    circular_mean_deg [10, 350] = 0 ∧
    ((10 : ℝ) + 350) / 2 = 180 ∧ (0 : ℝ) ≠ 180 ∧
    ∀ (closest_dir : ℝ) (segs : List (ℚ × ℝ)), 3 ≤ (nearby_of segs).length →
      (view_stage closest_dir segs).1 = circular_mean_deg (dirs_of segs) := by
  refine ⟨?_, by norm_num, by norm_num, ?_⟩
  · have h350 : radians 350 = 2 * Real.pi - radians 10 := by unfold radians; ring
    have hs : Real.sin (radians 350) = -Real.sin (radians 10) := by
      rw [h350, Real.sin_sub]
      simp [Real.sin_two_pi, Real.cos_two_pi]
    have hcob : Real.cos (radians 350) = Real.cos (radians 10) := by
      rw [h350, Real.cos_sub]
      simp [Real.sin_two_pi, Real.cos_two_pi]
    have h10 : radians 10 = Real.pi / 18 := by unfold radians; ring
    have hcpos : 0 < Real.cos (radians 10) := by
      rw [h10]
      apply Real.cos_pos_of_mem_Ioo
      constructor
      · nlinarith [Real.pi_pos]
      · nlinarith [Real.pi_pos]
    simp only [circular_mean_deg, List.map_cons, List.map_nil, List.sum_cons, List.sum_nil]
    rw [hs, hcob]
    have e1 : Real.sin (radians 10) + (-Real.sin (radians 10) + 0) = 0 := by ring
    have e2 : Real.cos (radians 10) + (Real.cos (radians 10) + 0)
        = 2 * Real.cos (radians 10) := by ring
    rw [e1, e2]
    have ha : atan2 0 (2 * Real.cos (radians 10)) = 0 := by
      unfold atan2
      rw [if_pos (by linarith)]
      simp [Real.arctan_zero]
    rw [ha]
    have hd : degrees 0 = 0 := by unfold degrees; simp
    rw [hd]
    unfold pymodR
    norm_num
  · intro closest_dir segs h
    simp only [view_stage, if_pos h]
    split_ifs <;> rfl

/-- C9 witness: the estimator-link part applied to three concrete
segments at distances 1, 2, 3 m, all facing 90 degrees. -/
theorem circular_mean_wraparound_witness :
    3 ≤ (nearby_of demo_segments).length ∧
    (view_stage 90 demo_segments).1 = circular_mean_deg (dirs_of demo_segments) :=
  ⟨by norm_num [nearby_of, demo_segments, sortByDist, insertByDist, List.filter],
   circular_mean_wraparound.2.2.2 90 demo_segments
     (by norm_num [nearby_of, demo_segments, sortByDist, insertByDist, List.filter])⟩
